import Mathlib

/-
Verification of the Brixsport analytics service stub
(src/brixsport-backend/apps/analytics/main.py).

The source registers two GET routes on a FastAPI application:
  GET /        -> root()          returns dict (message -> "Brixsport Analytics Service")
  GET /health  -> health_check()  returns dict (status -> "OK")
and, when executed as the main module, starts uvicorn on host 0.0.0.0
port 8000.  The embedding below models the route table from the source
and the framework's default dispatch (404 on unknown path, 405 on a
known path with an unregistered method) from the specification.
-/

namespace Brixsport

/-- HTTP methods that a client may use. -/
inductive Method where
  | GET
  | POST
  | PUT
  | DELETE
  | PATCH
  | HEAD
  | OPTIONS
deriving DecidableEq, Repr

/-- An inbound HTTP request: method, path, and the request content
(query string, headers, body) that the two handlers never read. -/
structure Request where
  method : Method
  path : String
  queryString : String
  headers : List (String × String)
  body : String
deriving DecidableEq, Repr

/-- An HTTP response: a status code and a flat JSON-object body given as
key/value pairs, which is the exact shape of both dict literals returned
by the handlers in main.py. -/
structure Response where
  status : Nat
  body : List (String × String)
deriving DecidableEq, Repr

/-- Handler of GET /, from `root` in main.py: returns the dict literal
with the single key "message" mapped to "Brixsport Analytics Service". -/
def root : List (String × String) :=
  [("message", "Brixsport Analytics Service")]

/-- Handler of GET /health, from `health_check` in main.py: returns the
dict literal with the single key "status" mapped to "OK". -/
def health_check : List (String × String) :=
  [("status", "OK")]

/-- A registered route: the method and path given to the decorator and
the handler function it wraps. -/
structure Route where
  method : Method
  path : String
  handler : Unit → List (String × String)

/-- The FastAPI application of main.py: exactly two routes, both
registered with `app.get`, so both for method GET only. -/
def app : List Route :=
  [⟨Method.GET, "/", fun _ => root⟩,
   ⟨Method.GET, "/health", fun _ => health_check⟩]

/-- Look up the first route matching both method and path. -/
def findRoute : List Route → Method → String → Option Route
  | [], _, _ => none
  | r :: rest, m, p =>
    if r.method = m ∧ r.path = p then some r else findRoute rest m p

/-- Whether some route is registered at the given path (any method). -/
def pathKnown : List Route → String → Bool
  | [], _ => false
  | r :: rest, p => if r.path = p then true else pathKnown rest p

/-- Modelled from the spec: FastAPI's default request dispatch, which is
framework code not present in the repository source.  A request whose
method and path match a registered route gets status 200 with the
handler's return value; a request to a registered path with an
unregistered method gets the framework's 405 response; any other path
gets the framework's 404 response. -/
def handleRequest (routes : List Route) (req : Request) : Response :=
  match findRoute routes req.method req.path with
  | some r => ⟨200, r.handler ()⟩
  | none =>
    if pathKnown routes req.path then
      ⟨405, [("detail", "Method Not Allowed")]⟩
    else
      ⟨404, [("detail", "Not Found")]⟩

/-- The state a running server carries between requests: nothing but the
immutable route table built at import time.  main.py defines no other
module-level or per-request state. -/
structure ServerState where
  routes : List Route

/-- Starting the process builds the application from the module's
constants; the Unit argument marks one process execution (a "run") and
is not read, since startup takes no input. -/
def startServer (_boot : Unit) : ServerState :=
  ⟨app⟩

/-- One request handled by the running server: the handlers of main.py
perform no writes, so the state component is returned unchanged. -/
def step (s : ServerState) (req : Request) : ServerState × Response :=
  (s, handleRequest s.routes req)

/-- Handle a sequence of requests in order, threading the server state
through every call. -/
def serve : ServerState → List Request → ServerState × List Response
  | s, [] => (s, [])
  | s, req :: rest =>
    let p := step s req
    let q := serve p.1 rest
    (q.1, p.2 :: q.2)

/-- Render one JSON object field as key and value in double quotes. -/
def renderField (kv : String × String) : String :=
  "\"" ++ kv.1 ++ "\": \"" ++ kv.2 ++ "\""

/-- Render a flat JSON object body to its wire text. -/
def renderBody (fs : List (String × String)) : String :=
  "\x7b" ++ String.intercalate ", " (fs.map renderField) ++ "\x7d"

/-- Render a full response (status then body) to its wire text, for
byte-level comparison of responses. -/
def renderResponse (r : Response) : String :=
  toString r.status ++ " " ++ renderBody r.body

/-- The uvicorn.run call of main.py, reduced to the data it is given:
the bind host and port. -/
structure UvicornRun where
  host : String
  port : Nat
deriving DecidableEq, Repr

/-- The module-level guard of main.py: uvicorn is started on 0.0.0.0
port 8000 exactly when the module name is "__main__" (executed
directly); command-line arguments and the environment are never read. -/
def moduleMain (moduleName : String) (_argv : List String)
    (_env : List (String × String)) : Option UvicornRun :=
  if moduleName = "__main__" then some ⟨"0.0.0.0", 8000⟩ else none

/-- Ways the started process can stop, per the specification. -/
inductive StartOutcome where
  | bindFailure
  | signalShutdown
deriving DecidableEq, Repr

/-- Modelled from the spec: the process exit status of the uvicorn
server, which is library code not present in the repository source.
Failure to bind the listening port is fatal with a non-zero exit
status; a clean signal-initiated shutdown exits with status 0. -/
def exitCode : StartOutcome → Nat
  | StartOutcome.bindFailure => 1
  | StartOutcome.signalShutdown => 0

/-- A plain GET / request with no query, headers or body. -/
def getRoot : Request :=
  ⟨Method.GET, "/", "", [], ""⟩

/-- A GET / request carrying a query string, a header and a body, none
of which the handler reads. -/
def getRootWithContent : Request :=
  ⟨Method.GET, "/", "a=1", [("X-Token", "secret")], "payload"⟩

/-- A plain GET /health request. -/
def getHealth : Request :=
  ⟨Method.GET, "/health", "", [], ""⟩

/-- A second GET /health request with different content, standing for a
distinct concurrent client. -/
def getHealthOther : Request :=
  ⟨Method.GET, "/health", "probe=2", [("X-Probe", "b")], ""⟩

/-- A GET request to a path with no registered route. -/
def getUnknown : Request :=
  ⟨Method.GET, "/unknown", "", [], ""⟩

/-- A POST request to the registered path /. -/
def postRoot : Request :=
  ⟨Method.POST, "/", "", [], ""⟩

/-- Serving a request list returns the state unchanged and responds to
each request independently with the pure dispatch function. -/
theorem serve_eq (s : ServerState) (reqs : List Request) :
    serve s reqs = (s, reqs.map fun r => handleRequest s.routes r) := by
  induction reqs with
  | nil => rfl
  | cons r rest ih => simp [serve, step, ih]

/-- Dispatch on the application of main.py sends every GET / request to
the root handler. -/
theorem handleRequest_root (req : Request) (hm : req.method = Method.GET)
    (hp : req.path = "/") : handleRequest app req = ⟨200, root⟩ := by
  simp [handleRequest, findRoute, app, hm, hp]

/-- Dispatch on the application of main.py sends every GET /health
request to the health handler. -/
theorem handleRequest_health (req : Request) (hm : req.method = Method.GET)
    (hp : req.path = "/health") : handleRequest app req = ⟨200, health_check⟩ := by
  simp [handleRequest, findRoute, app, hm, hp]

/-- C1: every GET / request, over any number of repeated calls, gets
status 200 with body mapping "message" to "Brixsport Analytics
Service"; the root handler's result equals this constant on every
invocation. -/
theorem root_returns_constant (reqs : List Request)
    (h : ∀ r ∈ reqs, r.method = Method.GET ∧ r.path = "/") :
    (serve (startServer ()) reqs).2 =
      List.replicate reqs.length
        ⟨200, [("message", "Brixsport Analytics Service")]⟩ := by
  rw [serve_eq]
  refine List.eq_replicate_iff.mpr ⟨by simp, ?_⟩
  intro b hb
  obtain ⟨r, hr, hrb⟩ := List.mem_map.mp hb
  obtain ⟨hm, hp⟩ := h r hr
  rw [← hrb]
  exact handleRequest_root r hm hp

/-- Witness for C1: three repeated GET / calls each return the constant
response. -/
theorem root_returns_constant_witness :
    (serve (startServer ()) [getRoot, getRoot, getRoot]).2 =
      List.replicate 3 ⟨200, [("message", "Brixsport Analytics Service")]⟩ :=
  root_returns_constant [getRoot, getRoot, getRoot] (by decide)

/-- C2: every GET /health request, over any number of repeated calls,
gets status 200 with body mapping "status" to "OK". -/
theorem health_returns_constant (reqs : List Request)
    (h : ∀ r ∈ reqs, r.method = Method.GET ∧ r.path = "/health") :
    (serve (startServer ()) reqs).2 =
      List.replicate reqs.length ⟨200, [("status", "OK")]⟩ := by
  rw [serve_eq]
  refine List.eq_replicate_iff.mpr ⟨by simp, ?_⟩
  intro b hb
  obtain ⟨r, hr, hrb⟩ := List.mem_map.mp hb
  obtain ⟨hm, hp⟩ := h r hr
  rw [← hrb]
  exact handleRequest_health r hm hp

/-- Witness for C2: two repeated GET /health calls each return the
constant response. -/
theorem health_returns_constant_witness :
    (serve (startServer ()) [getHealth, getHealth]).2 =
      List.replicate 2 ⟨200, [("status", "OK")]⟩ :=
  health_returns_constant [getHealth, getHealth] (by decide)

/-- C3: the handlers have no side effect: serving any request sequence
leaves the server state unchanged, and each response is computed afresh
from the constant handler for that request alone, not shared or cached
across requests. -/
theorem handlers_no_side_effect (s : ServerState) (reqs : List Request) :
    (serve s reqs).1 = s ∧
    (serve s reqs).2 = reqs.map (fun r => handleRequest s.routes r) := by
  rw [serve_eq]
  exact ⟨rfl, rfl⟩

/-- C4: a GET request to any path other than / and /health gets the
framework's default 404 response, never status 200. -/
theorem unknown_path_404 (req : Request) (hm : req.method = Method.GET)
    (h1 : req.path ≠ "/") (h2 : req.path ≠ "/health") :
    handleRequest app req = ⟨404, [("detail", "Not Found")]⟩ ∧
    (handleRequest app req).status ≠ 200 := by
  have h1s : ("/" : String) ≠ req.path := fun h => h1 h.symm
  have h2s : ("/health" : String) ≠ req.path := fun h => h2 h.symm
  have key : handleRequest app req = ⟨404, [("detail", "Not Found")]⟩ := by
    simp [handleRequest, findRoute, pathKnown, app, hm, h1s, h2s]
  exact ⟨key, by rw [key]; decide⟩

/-- Witness for C4: GET /unknown gets the 404 response. -/
theorem unknown_path_404_witness :
    handleRequest app getUnknown = ⟨404, [("detail", "Not Found")]⟩ ∧
    (handleRequest app getUnknown).status ≠ 200 :=
  unknown_path_404 getUnknown rfl (by decide) (by decide)

/-- C5: any request to the registered path / with a method other than
GET gets the framework's 405 response, never status 200, since the
route is registered for GET only. -/
theorem wrong_method_405 (req : Request) (hp : req.path = "/")
    (hm : req.method ≠ Method.GET) :
    handleRequest app req = ⟨405, [("detail", "Method Not Allowed")]⟩ ∧
    (handleRequest app req).status ≠ 200 := by
  have hms : Method.GET ≠ req.method := fun h => hm h.symm
  have key : handleRequest app req = ⟨405, [("detail", "Method Not Allowed")]⟩ := by
    simp [handleRequest, findRoute, pathKnown, app, hp, hms]
  exact ⟨key, by rw [key]; decide⟩

/-- Witness for C5: POST / gets the 405 response. -/
theorem wrong_method_405_witness :
    handleRequest app postRoot = ⟨405, [("detail", "Method Not Allowed")]⟩ ∧
    (handleRequest app postRoot).status ≠ 200 :=
  wrong_method_405 postRoot rfl (by decide)

/-- C6: the service is deterministic across runs: two separately started
processes give equal responses to every request, and in particular the
rendered bytes of the responses to GET / and GET /health coincide
across restarts. -/
theorem restart_deterministic (u1 u2 : Unit) (req : Request) :
    (step (startServer u1) req).2 = (step (startServer u2) req).2 ∧
    renderResponse (step (startServer u1) getRoot).2 =
      renderResponse (step (startServer u2) getRoot).2 ∧
    renderResponse (step (startServer u1) getHealth).2 =
      renderResponse (step (startServer u2) getHealth).2 := by
  cases u1
  cases u2
  exact ⟨rfl, rfl, rfl⟩

/-- C7: the entry point starts the listener on host 0.0.0.0 port 8000
exactly when the module runs as "__main__", and neither command-line
arguments nor the environment influence the outcome. -/
theorem entry_point (argv1 argv2 : List String)
    (env1 env2 : List (String × String)) (n : String) :
    moduleMain "__main__" argv1 env1 = some ⟨"0.0.0.0", 8000⟩ ∧
    (n ≠ "__main__" → moduleMain n argv1 env1 = none) ∧
    moduleMain n argv1 env1 = moduleMain n argv2 env2 := by
  refine ⟨by simp [moduleMain], fun h => by simp [moduleMain, h], rfl⟩

/-- Witness for C7: run directly the listener starts on 0.0.0.0 port
8000; imported under its own module name it does not start, no matter
the arguments or environment. -/
theorem entry_point_witness :
    moduleMain "__main__" [] [] = some ⟨"0.0.0.0", 8000⟩ ∧
    moduleMain "analytics.main" [] [] = none ∧
    moduleMain "analytics.main" ["--port"] [("PORT", "1")] =
      moduleMain "analytics.main" [] [] :=
  ⟨(entry_point [] [] [] [] "x").1,
   (entry_point [] [] [] [] "analytics.main").2.1 (by decide),
   (entry_point ["--port"] [] [("PORT", "1")] [] "analytics.main").2.2⟩

/-- C8: a bind failure at startup exits with a non-zero status, a clean
signal-initiated shutdown exits with status 0, and the handlers add no
failure path: dispatch is total and only ever answers 200, 404 or
405. -/
theorem exit_codes_and_total_handlers (req : Request) :
    exitCode StartOutcome.bindFailure ≠ 0 ∧
    exitCode StartOutcome.signalShutdown = 0 ∧
    ((handleRequest app req).status = 200 ∨
     (handleRequest app req).status = 404 ∨
     (handleRequest app req).status = 405) := by
  refine ⟨by decide, rfl, ?_⟩
  unfold handleRequest
  cases findRoute app req.method req.path with
  | some r => simp
  | none =>
    by_cases hk : pathKnown app req.path
    · simp [hk]
    · simp [hk]

/-- C9: two concurrent GET /health requests both receive the identical
constant body under either interleaving order, and neither affects the
other or the server state, matching sequential execution. -/
theorem concurrent_health_requests (r1 r2 : Request)
    (h1m : r1.method = Method.GET) (h1p : r1.path = "/health")
    (h2m : r2.method = Method.GET) (h2p : r2.path = "/health") :
    (serve (startServer ()) [r1, r2]).2 = [⟨200, [("status", "OK")]⟩, ⟨200, [("status", "OK")]⟩] ∧
    (serve (startServer ()) [r2, r1]).2 = [⟨200, [("status", "OK")]⟩, ⟨200, [("status", "OK")]⟩] ∧
    (serve (startServer ()) [r1, r2]).1 = startServer () := by
  have e1 := handleRequest_health r1 h1m h1p
  have e2 := handleRequest_health r2 h2m h2p
  refine ⟨?_, ?_, ?_⟩
  · rw [serve_eq]
    simp [startServer, e1, e2, health_check]
  · rw [serve_eq]
    simp [startServer, e1, e2, health_check]
  · rw [serve_eq]

/-- Witness for C9: two distinct concurrent /health clients both get the
constant body in both orders, with the state unchanged. -/
theorem concurrent_health_requests_witness :
    (serve (startServer ()) [getHealth, getHealthOther]).2 =
      [⟨200, [("status", "OK")]⟩, ⟨200, [("status", "OK")]⟩] ∧
    (serve (startServer ()) [getHealthOther, getHealth]).2 =
      [⟨200, [("status", "OK")]⟩, ⟨200, [("status", "OK")]⟩] ∧
    (serve (startServer ()) [getHealth, getHealthOther]).1 = startServer () :=
  concurrent_health_requests getHealth getHealthOther rfl rfl rfl rfl

/-- C10: neither handler reads any request content: two requests with
the same method and path get exactly the same response regardless of
query string, headers, cookies or body, so no request data flows into
the output. -/
theorem request_content_noninterference (r1 r2 : Request)
    (hm : r1.method = r2.method) (hp : r1.path = r2.path) :
    handleRequest app r1 = handleRequest app r2 := by
  unfold handleRequest
  rw [hm, hp]

/-- Witness for C10: a GET / request loaded with a query string, a
header and a body gets the same response as the bare GET /. -/
theorem request_content_noninterference_witness :
    handleRequest app getRootWithContent = handleRequest app getRoot :=
  request_content_noninterference getRootWithContent getRoot rfl rfl

end Brixsport
